import Mathlib

/-!
Shallow embedding of the sliding-window dataset construction from
`src/build-a-llm/dataset_v1.py` (class `GPTDatasetV1` and the `build`
operation the specification derives from its `__init__`).

Python integer semantics are modelled with `Int`; Python `range` and list
slicing are modelled faithfully, including negative steps, negative slice
endpoints and clamping, so that behaviour outside the "positive parameter"
regime is captured exactly.  Tokenisation is an external black box: the
model takes the already-encoded token sequence as input.
-/

/-- Number of elements of the Python sequence range(start, stop, step) for
nonzero step.  For step = 0 Python raises before any length is computed;
callers guard that case, so the value returned here is never used. -/
def rangeLen (start stop step : Int) : Nat :=
  if 0 < step then (stop - start + step - 1).toNat / step.toNat
  else (start - stop - step - 1).toNat / (-step).toNat

/-- The Python sequence range(start, stop, step) as a list, for nonzero
step: element k is start + step * k. -/
def pyRange (start stop step : Int) : List Int :=
  (List.range (rangeLen start stop step)).map
    (fun k : Nat => start + step * (k : Int))

/-- Clamp a Python slice endpoint for a list of length n: a negative index
counts from the end, and the result is clamped into the interval 0..n. -/
def sliceIdx (n i : Int) : Int :=
  if i < 0 then max (n + i) 0 else min i n

/-- Python list slicing xs[a : b] with unit step.  Never fails: endpoints
are clamped, and an empty list results when the clamped bounds cross. -/
def pySlice (xs : List Int) (a b : Int) : List Int :=
  (xs.drop (sliceIdx (xs.length : Int) a).toNat).take
    ((sliceIdx (xs.length : Int) b) - (sliceIdx (xs.length : Int) a)).toNat

/-- The ordered sequence of (input_window, target_window) pairs produced by
the sliding-window loop in GPTDatasetV1.__init__: for each loop index i in
range(0, len(token_ids) - max_length, stride) it pairs the slice
token_ids[i : i + max_length] with token_ids[i + 1 : i + max_length + 1]. -/
def samplesOf (token_sequence : List Int) (max_length stride : Int) :
    List (List Int × List Int) :=
  (pyRange 0 ((token_sequence.length : Int) - max_length) stride).map
    (fun i => (pySlice token_sequence i (i + max_length),
               pySlice token_sequence (i + 1) (i + max_length + 1)))

/-- The build operation of the sampler.  The only failing case in the
source is stride = 0, where Python range raises ValueError; every other
parameter combination runs the loop to completion. -/
def build (token_sequence : List Int) (max_length stride : Int) :
    Except String (List (List Int × List Int)) :=
  if stride = 0 then Except.error "range arg 3 must not be zero"
  else Except.ok (samplesOf token_sequence max_length stride)

instance exceptDecEq {ε α : Type} [DecidableEq ε] [DecidableEq α] :
    DecidableEq (Except ε α) := fun x y =>
  match x, y with
  | Except.error e, Except.error f =>
      if h : e = f then isTrue (by rw [h])
      else isFalse (by intro hc; cases hc; exact h rfl)
  | Except.error _, Except.ok _ => isFalse (by intro hc; cases hc)
  | Except.ok _, Except.error _ => isFalse (by intro hc; cases hc)
  | Except.ok a, Except.ok b =>
      if h : a = b then isTrue (by rw [h])
      else isFalse (by intro hc; cases hc; exact h rfl)

/-- The dataset object: the two parallel lists grown by the loop in
GPTDatasetV1.__init__. -/
structure GPTDatasetV1 where
  input_ids : List (List Int)
  target_ids : List (List Int)
deriving DecidableEq

/-- GPTDatasetV1.__init__ on an already-tokenised sequence: fills the two
parallel lists by the same sliding-window loop. -/
def GPTDatasetV1.init (token_ids : List Int) (max_length stride : Int) :
    Except String GPTDatasetV1 :=
  if stride = 0 then Except.error "range arg 3 must not be zero"
  else Except.ok
    { input_ids := (pyRange 0 ((token_ids.length : Int) - max_length) stride).map
        (fun i => pySlice token_ids i (i + max_length))
      target_ids := (pyRange 0 ((token_ids.length : Int) - max_length) stride).map
        (fun i => pySlice token_ids (i + 1) (i + max_length + 1)) }

/-- GPTDatasetV1.__len__. -/
def GPTDatasetV1.len (d : GPTDatasetV1) : Nat := d.input_ids.length

/-- GPTDatasetV1.__getitem__, returning none exactly when Python would
raise IndexError. -/
def GPTDatasetV1.getitem (d : GPTDatasetV1) (idx : Nat) :
    Option (List Int × List Int) :=
  match d.input_ids[idx]?, d.target_ids[idx]? with
  | some a, some b => some (a, b)
  | _, _ => none

/-- The first twelve token ids of the-verdict.txt under the gpt2 encoding,
as recorded in the source comments. -/
def exampleTokens : List Int :=
  [40, 367, 2885, 1464, 1807, 3619, 402, 271, 10899, 2138, 257, 7026]

/-! ## Helper lemmas -/

lemma lt_rangeLen_iff {t s : Int} (hs : 0 < s) (k : Nat) :
    k < rangeLen 0 t s ↔ (s * k : Int) < t := by
  have hsn : 0 < s.toNat := by omega
  unfold rangeLen
  rw [if_pos hs, Nat.lt_iff_add_one_le, Nat.le_div_iff_mul_le hsn]
  have hq : ((k * s.toNat : Nat) : Int) = s * k := by
    push_cast [Int.toNat_of_nonneg hs.le]
    ring
  generalize hQ : k * s.toNat = q at hq
  have h2 : (k + 1) * s.toNat = q + s.toNat := by rw [← hQ]; ring
  rw [h2, ← hq]
  omega

lemma length_samplesOf (ts : List Int) (m s : Int) :
    (samplesOf ts m s).length = rangeLen 0 ((ts.length : Int) - m) s := by
  unfold samplesOf pyRange
  rw [List.length_map, List.length_map, List.length_range]

lemma getElem?_pyRange (start t s : Int) (k : Nat) (h : k < rangeLen start t s) :
    (pyRange start t s)[k]? = some (start + s * k) := by
  unfold pyRange
  rw [List.getElem?_map, List.getElem?_range h]
  rfl

lemma getElem?_samplesOf (ts : List Int) (m s : Int) (k : Nat)
    (h : k < (samplesOf ts m s).length) :
    (samplesOf ts m s)[k]? =
      some (pySlice ts (s * k) (s * k + m),
            pySlice ts (s * k + 1) (s * k + m + 1)) := by
  rw [length_samplesOf] at h
  unfold samplesOf
  rw [List.getElem?_map, getElem?_pyRange _ _ _ _ h]
  simp [zero_add]

lemma sliceIdx_of_nonneg {n i : Int} (h0 : 0 ≤ i) (hn : i ≤ n) :
    sliceIdx n i = i := by
  unfold sliceIdx
  rw [if_neg (by omega)]
  exact min_eq_left hn

lemma pySlice_eq_drop_take {ts : List Int} {a b : Int} (h0 : 0 ≤ a)
    (hb : b ≤ (ts.length : Int)) (hab : a ≤ b) :
    pySlice ts a b = (ts.drop a.toNat).take (b - a).toNat := by
  unfold pySlice
  rw [sliceIdx_of_nonneg h0 (le_trans hab hb),
      sliceIdx_of_nonneg (le_trans h0 hab) hb]

lemma pySlice_length {ts : List Int} {a b : Int} (h0 : 0 ≤ a)
    (hb : b ≤ (ts.length : Int)) (hab : a ≤ b) :
    (pySlice ts a b).length = (b - a).toNat := by
  rw [pySlice_eq_drop_take h0 hb hab, List.length_take, List.length_drop]
  omega

lemma pySlice_getElem? {ts : List Int} {a b : Int} (h0 : 0 ≤ a)
    (hb : b ≤ (ts.length : Int)) (hab : a ≤ b) (j : Nat)
    (hj : j < (b - a).toNat) :
    (pySlice ts a b)[j]? = ts[a.toNat + j]? := by
  rw [pySlice_eq_drop_take h0 hb hab, List.getElem?_take_of_lt hj,
      List.getElem?_drop]

lemma pySlice_append_left (pref rest : List Int) {a b : Int} (h0 : 0 ≤ a)
    (hb : b ≤ (pref.length : Int)) (hab : a ≤ b) :
    pySlice (pref ++ rest) a b = pySlice pref a b := by
  have hb2 : b ≤ ((pref ++ rest).length : Int) := by
    rw [List.length_append]; push_cast; omega
  rw [pySlice_eq_drop_take h0 hb2 hab, pySlice_eq_drop_take h0 hb hab]
  rw [List.drop_append_eq_append_drop, List.take_append_eq_append_take]
  have h1 : a.toNat - pref.length = 0 := by omega
  have h2 : (b - a).toNat - (pref.length - a.toNat) = 0 := by omega
  simp [h1, h2]

lemma rangeLen_formula {t s : Int} (hs : 1 ≤ s) :
    rangeLen 0 t s = if 0 < t then (t - 1).toNat / s.toNat + 1 else 0 := by
  unfold rangeLen
  rw [if_pos (by omega)]
  by_cases ht : 0 < t
  · rw [if_pos ht]
    have h1 : (t - 0 + s - 1).toNat = (t - 1).toNat + s.toNat := by omega
    rw [h1, Nat.add_div_right _ (by omega)]
  · rw [if_neg ht]
    exact Nat.div_eq_of_lt (by omega)

/-! ## Claim theorems -/

/-- C1: for any token sequence, max_length >= 1 and stride >= 1, the k-th
sample emitted by build sits at start offset start = stride * k; its input
window is token_sequence[start : start + max_length], its target window is
token_sequence[start + 1 : start + max_length + 1], both have exactly
max_length elements, and element j of the target window is the token at
index start + j + 1. -/
theorem window_content (ts : List Int) (m s : Int) (hm : 1 ≤ m) (hs : 1 ≤ s)
    (k : Nat) (hk : k < (samplesOf ts m s).length) :
    ∃ sample : List Int × List Int,
      (samplesOf ts m s)[k]? = some sample ∧
      sample.1 = pySlice ts (s * k) (s * k + m) ∧
      sample.2 = pySlice ts (s * k + 1) (s * k + m + 1) ∧
      sample.1.length = m.toNat ∧
      sample.2.length = m.toNat ∧
      (∀ j : Nat, j < m.toNat → sample.1[j]? = ts[(s * k).toNat + j]?) ∧
      (∀ j : Nat, j < m.toNat → sample.2[j]? = ts[(s * k).toNat + j + 1]?) := by
  have hk2 : (s * (k : Int)) < (ts.length : Int) - m := by
    rw [length_samplesOf] at hk
    exact (lt_rangeLen_iff (by omega) k).mp hk
  have h0 : (0 : Int) ≤ s * (k : Int) :=
    mul_nonneg (by omega) (Int.natCast_nonneg k)
  rw [getElem?_samplesOf ts m s k hk]
  generalize hA : s * (k : Int) = a at hk2 h0 ⊢
  refine ⟨_, rfl, rfl, rfl, ?_, ?_, ?_, ?_⟩
  · rw [pySlice_length h0 (by omega) (by omega)]
    congr 1
    ring
  · rw [pySlice_length (by omega) (by omega) (by omega)]
    congr 1
    ring
  · intro j hj
    have hj2 : j < (a + m - a).toNat := by
      have he : a + m - a = m := by ring
      rw [he]; exact hj
    rw [pySlice_getElem? h0 (by omega) (by omega) j hj2]
  · intro j hj
    have hj2 : j < (a + m + 1 - (a + 1)).toNat := by
      have he : a + m + 1 - (a + 1) = m := by ring
      rw [he]; exact hj
    rw [pySlice_getElem? (by omega) (by omega) (by omega) j hj2]
    have he : (a + 1).toNat + j = a.toNat + j + 1 := by omega
    rw [he]

/-- Witness for C1 at token sequence [10,20,30,40,50], max_length 2,
stride 2, sample index 1 (start offset 2). -/
theorem window_content_witness :
    ∃ sample : List Int × List Int,
      (samplesOf [10,20,30,40,50] 2 2)[1]? = some sample ∧
      sample.1 = pySlice [10,20,30,40,50]
        ((2 : Int) * ((1 : Nat) : Int)) ((2 : Int) * ((1 : Nat) : Int) + 2) ∧
      sample.2 = pySlice [10,20,30,40,50]
        ((2 : Int) * ((1 : Nat) : Int) + 1)
        ((2 : Int) * ((1 : Nat) : Int) + 2 + 1) ∧
      sample.1.length = (2 : Int).toNat ∧
      sample.2.length = (2 : Int).toNat ∧
      (∀ j : Nat, j < (2 : Int).toNat →
        sample.1[j]? = [10,20,30,40,50][((2 : Int) * ((1 : Nat) : Int)).toNat + j]?) ∧
      (∀ j : Nat, j < (2 : Int).toNat →
        sample.2[j]? = [10,20,30,40,50][((2 : Int) * ((1 : Nat) : Int)).toNat + j + 1]?) :=
  window_content [10,20,30,40,50] 2 2 (by norm_num) (by norm_num) 1 (by decide)

/-- C2: for max_length >= 1 and stride >= 1, build succeeds and the number
of samples is floor((N - max_length - 1) / stride) + 1 when N > max_length
and 0 otherwise. -/
theorem sample_count (ts : List Int) (m s : Int) (hm : 1 ≤ m) (hs : 1 ≤ s) :
    build ts m s = Except.ok (samplesOf ts m s) ∧
    (samplesOf ts m s).length =
      if m < (ts.length : Int) then
        ((ts.length : Int) - m - 1).toNat / s.toNat + 1
      else 0 := by
  constructor
  · unfold build
    rw [if_neg (by omega)]
  · rw [length_samplesOf, rangeLen_formula hs]
    by_cases h : m < (ts.length : Int)
    · rw [if_pos (by omega), if_pos h]
    · rw [if_neg (by omega), if_neg h]

/-- Witness for C2 at token sequence [1,2,3,4,5,6,7], max_length 2,
stride 2: the formula gives 3 samples. -/
theorem sample_count_witness :
    build [1,2,3,4,5,6,7] 2 2 = Except.ok (samplesOf [1,2,3,4,5,6,7] 2 2) ∧
    (samplesOf [1,2,3,4,5,6,7] 2 2).length =
      if (2 : Int) < (([1,2,3,4,5,6,7] : List Int).length : Int) then
        ((([1,2,3,4,5,6,7] : List Int).length : Int) - 2 - 1).toNat /
          (2 : Int).toNat + 1
      else 0 :=
  sample_count [1,2,3,4,5,6,7] 2 2 (by norm_num) (by norm_num)

/-- C3 counterexample: max_length = 0 satisfies max_length <= 0, yet with
stride = 1 on the sequence [1,2,3] build does not fail: it returns three
samples of empty windows.  The claimed InvalidParameter failure does not
exist in the code. -/
theorem invalid_params_counterexample :
    (0 : Int) ≤ 0 ∧
    build [1, 2, 3] 0 1 = Except.ok [([], []), ([], []), ([], [])] := by
  decide

/-- C3 amended: build fails only when stride = 0 (the step of the Python
range, whose zero step raises ValueError); max_length <= 0 and stride < 0
do not cause a failure. -/
theorem invalid_params_amended (ts : List Int) (m s : Int) :
    (∃ e, build ts m s = Except.error e) ↔ s = 0 := by
  unfold build
  by_cases h : s = 0
  · rw [if_pos h]
    simp [h]
  · rw [if_neg h]
    simp [h]

/-- C4: for max_length >= 1 and stride >= 1, every generated sample at
start offset start = stride * k satisfies 0 <= start and
start + max_length <= N - 1, so all indices read, including the target
window's last at start + max_length, lie within 0..N-1. -/
theorem start_in_bounds (ts : List Int) (m s : Int) (hm : 1 ≤ m) (hs : 1 ≤ s)
    (k : Nat) (hk : k < (samplesOf ts m s).length) :
    (0 : Int) ≤ s * k ∧ s * k + m ≤ (ts.length : Int) - 1 := by
  have hk2 : (s * (k : Int)) < (ts.length : Int) - m := by
    rw [length_samplesOf] at hk
    exact (lt_rangeLen_iff (by omega) k).mp hk
  have h0 : (0 : Int) ≤ s * (k : Int) :=
    mul_nonneg (by omega) (Int.natCast_nonneg k)
  generalize hA : s * (k : Int) = a at hk2 h0 ⊢
  omega

/-- Witness for C4 at token sequence [5,6,7,8], max_length 1, stride 3,
sample index 0. -/
theorem start_in_bounds_witness :
    (0 : Int) ≤ 3 * ((0 : Nat) : Int) ∧
    3 * ((0 : Nat) : Int) + 1 ≤ (([5,6,7,8] : List Int).length : Int) - 1 :=
  start_in_bounds [5,6,7,8] 1 3 (by norm_num) (by norm_num) 0 (by decide)

/-- C5: for a nonempty token sequence and stride >= 1, max_length = N - 1
yields exactly one sample, and max_length >= N yields zero samples with no
error raised. -/
theorem boundary_cases (ts : List Int) (m s : Int) (hN : 1 ≤ ts.length)
    (hs : 1 ≤ s) :
    (m = (ts.length : Int) - 1 → (samplesOf ts m s).length = 1) ∧
    ((ts.length : Int) ≤ m → build ts m s = Except.ok []) := by
  constructor
  · intro hm
    rw [length_samplesOf, rangeLen_formula hs, if_pos (by omega)]
    have h1 : ((ts.length : Int) - m - 1).toNat = 0 := by omega
    rw [h1, Nat.zero_div]
  · intro hm
    unfold build
    rw [if_neg (by omega)]
    congr 1
    have h1 : (samplesOf ts m s).length = 0 := by
      rw [length_samplesOf, rangeLen_formula hs, if_neg (by omega)]
    exact List.length_eq_zero.mp h1

/-- Witness for C5 at token sequence [9,8,7] with stride 5: max_length 2
is N - 1 and yields one sample; the second branch is vacuous there. -/
theorem boundary_cases_witness :
    ((2 : Int) = (([9,8,7] : List Int).length : Int) - 1 →
      (samplesOf [9,8,7] 2 5).length = 1) ∧
    ((([9,8,7] : List Int).length : Int) ≤ 2 →
      build [9,8,7] 2 5 = Except.ok []) :=
  boundary_cases [9,8,7] 2 5 (by decide) (by norm_num)

lemma length_pyRange (start t s : Int) :
    (pyRange start t s).length = rangeLen start t s := by
  unfold pyRange
  rw [List.length_map, List.length_range]

lemma init_ok (ts : List Int) (m s : Int) (hs : s ≠ 0) :
    GPTDatasetV1.init ts m s = Except.ok
      { input_ids := (samplesOf ts m s).map Prod.fst,
        target_ids := (samplesOf ts m s).map Prod.snd } := by
  unfold GPTDatasetV1.init samplesOf
  rw [if_neg hs, List.map_map, List.map_map]
  rfl

/-- C6: for max_length >= 1 and stride >= 1, build succeeds and its samples
are exactly those at start offsets stride * k for k = 0, 1, 2, ...; index k
exists precisely when stride * k < N - max_length, and the start offsets
are strictly increasing in k. -/
theorem enumeration_order (ts : List Int) (m s : Int) (hm : 1 ≤ m)
    (hs : 1 ≤ s) :
    build ts m s = Except.ok (samplesOf ts m s) ∧
    samplesOf ts m s =
      (List.range (samplesOf ts m s).length).map
        (fun k : Nat => (pySlice ts (s * k) (s * k + m),
                         pySlice ts (s * k + 1) (s * k + m + 1))) ∧
    (∀ k : Nat, k < (samplesOf ts m s).length ↔
      (s * k : Int) < (ts.length : Int) - m) ∧
    (∀ k : Nat, (s * k : Int) < s * ((k : Int) + 1)) := by
  refine ⟨?_, ?_, ?_, ?_⟩
  · unfold build
    rw [if_neg (by omega)]
  · rw [length_samplesOf]
    unfold samplesOf pyRange
    rw [List.map_map]
    congr 1
    funext a
    simp [Function.comp]
  · intro k
    rw [length_samplesOf]
    exact lt_rangeLen_iff (by omega) k
  · intro k
    have hlt : (k : Int) < (k : Int) + 1 := by omega
    exact mul_lt_mul_of_pos_left hlt (by omega)

/-- Witness for C6 at token sequence [1,2,3,4], max_length 1, stride 2. -/
theorem enumeration_order_witness :
    build [1,2,3,4] 1 2 = Except.ok (samplesOf [1,2,3,4] 1 2) ∧
    samplesOf [1,2,3,4] 1 2 =
      (List.range (samplesOf [1,2,3,4] 1 2).length).map
        (fun k : Nat => (pySlice [1,2,3,4] (2 * k) (2 * k + 1),
                         pySlice [1,2,3,4] (2 * k + 1) (2 * k + 1 + 1))) ∧
    (∀ k : Nat, k < (samplesOf [1,2,3,4] 1 2).length ↔
      ((2 : Int) * k : Int) < (([1,2,3,4] : List Int).length : Int) - 1) ∧
    (∀ k : Nat, ((2 : Int) * k : Int) < 2 * ((k : Int) + 1)) :=
  enumeration_order [1,2,3,4] 1 2 (by norm_num) (by norm_num)

/-- C7: on any token sequence starting with the twelve recorded tokens of
the-verdict.txt, with max_length 4 and stride 1, build succeeds and the
first two samples are exactly the pairs recorded in the source comments. -/
theorem concrete_first_two_samples (rest : List Int) :
    build (exampleTokens ++ rest) 4 1 =
      Except.ok (samplesOf (exampleTokens ++ rest) 4 1) ∧
    (samplesOf (exampleTokens ++ rest) 4 1)[0]? =
      some ([40, 367, 2885, 1464], [367, 2885, 1464, 1807]) ∧
    (samplesOf (exampleTokens ++ rest) 4 1)[1]? =
      some ([367, 2885, 1464, 1807], [2885, 1464, 1807, 3619]) := by
  have h12 : (exampleTokens.length : Int) = 12 := by rfl
  have hN : ((exampleTokens ++ rest).length : Int) - 4 = 8 + rest.length := by
    rw [List.length_append]
    push_cast
    omega
  have hx : ∀ a b : Int, 0 ≤ a → a ≤ b → b ≤ 12 →
      pySlice (exampleTokens ++ rest) a b = pySlice exampleTokens a b := by
    intro a b h0 hab hb
    exact pySlice_append_left exampleTokens rest h0 (by omega) hab
  have hk0 : 0 < (samplesOf (exampleTokens ++ rest) 4 1).length := by
    rw [length_samplesOf]
    rw [lt_rangeLen_iff (by norm_num) 0]
    rw [hN]
    push_cast
    omega
  have hk1 : 1 < (samplesOf (exampleTokens ++ rest) 4 1).length := by
    rw [length_samplesOf]
    rw [lt_rangeLen_iff (by norm_num) 1]
    rw [hN]
    push_cast
    omega
  refine ⟨?_, ?_, ?_⟩
  · unfold build
    rw [if_neg (by norm_num)]
  · rw [getElem?_samplesOf _ _ _ 0 hk0]
    norm_num
    rw [hx 0 4 (by norm_num) (by norm_num) (by norm_num),
        hx 1 5 (by norm_num) (by norm_num) (by norm_num)]
    decide
  · rw [getElem?_samplesOf _ _ _ 1 hk1]
    norm_num
    rw [hx 1 5 (by norm_num) (by norm_num) (by norm_num),
        hx 2 6 (by norm_num) (by norm_num) (by norm_num)]
    decide

/-- C8: build is deterministic: two calls on element-wise identical
arguments return the same result, with sample sequences of equal length
that agree at every index. -/
theorem build_deterministic (ts₁ ts₂ : List Int) (m₁ m₂ s₁ s₂ : Int)
    (ht : ts₁ = ts₂) (hm : m₁ = m₂) (hs : s₁ = s₂) :
    build ts₁ m₁ s₁ = build ts₂ m₂ s₂ ∧
    (samplesOf ts₁ m₁ s₁).length = (samplesOf ts₂ m₂ s₂).length ∧
    ∀ k : Nat, (samplesOf ts₁ m₁ s₁)[k]? = (samplesOf ts₂ m₂ s₂)[k]? := by
  subst ht
  subst hm
  subst hs
  exact ⟨rfl, rfl, fun _ => rfl⟩

/-- Witness for C8 at token sequence [1,2,3], max_length 1, stride 1. -/
theorem build_deterministic_witness :
    build [1,2,3] 1 1 = build [1,2,3] 1 1 ∧
    (samplesOf [1,2,3] 1 1).length = (samplesOf [1,2,3] 1 1).length ∧
    ∀ k : Nat, (samplesOf [1,2,3] 1 1)[k]? = (samplesOf [1,2,3] 1 1)[k]? :=
  build_deterministic [1,2,3] [1,2,3] 1 1 1 1 rfl rfl rfl

/-- C9: after a successful construction the two parallel lists have equal
length, len returns that common length, and getitem at any in-range index
returns the pair of the idx-th input window and idx-th target window, which
together form the idx-th emitted sample. -/
theorem dataset_invariants (ts : List Int) (m s : Int) (d : GPTDatasetV1)
    (h : GPTDatasetV1.init ts m s = Except.ok d) :
    d.input_ids.length = d.target_ids.length ∧
    d.len = d.input_ids.length ∧
    ∀ idx : Nat, idx < d.len →
      ∃ p : List Int × List Int,
        d.getitem idx = some p ∧
        d.input_ids[idx]? = some p.1 ∧
        d.target_ids[idx]? = some p.2 ∧
        (samplesOf ts m s)[idx]? = some p := by
  have hs : s ≠ 0 := by
    intro h0
    unfold GPTDatasetV1.init at h
    rw [if_pos h0] at h
    exact Except.noConfusion h
  have hd : d = { input_ids := (samplesOf ts m s).map Prod.fst,
                  target_ids := (samplesOf ts m s).map Prod.snd } := by
    have h2 := init_ok ts m s hs
    rw [h] at h2
    exact ((Except.ok.injEq _ _).mp h2)
  subst hd
  refine ⟨?_, rfl, ?_⟩
  · rw [List.length_map, List.length_map]
  · intro idx hidx
    have hidx2 : idx < (samplesOf ts m s).length := by
      unfold GPTDatasetV1.len at hidx
      rw [List.length_map] at hidx
      exact hidx
    refine ⟨(samplesOf ts m s).get ⟨idx, hidx2⟩, ?_, ?_, ?_, ?_⟩
    · unfold GPTDatasetV1.getitem
      rw [List.getElem?_map, List.getElem?_map,
          List.getElem?_eq_getElem hidx2]
      rfl
    · rw [List.getElem?_map, List.getElem?_eq_getElem hidx2]
      rfl
    · rw [List.getElem?_map, List.getElem?_eq_getElem hidx2]
      rfl
    · rw [List.getElem?_eq_getElem hidx2]
      rfl

/-- Witness for C9 on token sequence [1,2,3] with max_length 1, stride 1,
whose dataset holds input windows [[1],[2]] and target windows [[2],[3]]. -/
theorem dataset_invariants_witness :
    (⟨[[1],[2]], [[2],[3]]⟩ : GPTDatasetV1).input_ids.length =
      (⟨[[1],[2]], [[2],[3]]⟩ : GPTDatasetV1).target_ids.length ∧
    (⟨[[1],[2]], [[2],[3]]⟩ : GPTDatasetV1).len =
      (⟨[[1],[2]], [[2],[3]]⟩ : GPTDatasetV1).input_ids.length ∧
    ∀ idx : Nat, idx < (⟨[[1],[2]], [[2],[3]]⟩ : GPTDatasetV1).len →
      ∃ p : List Int × List Int,
        (⟨[[1],[2]], [[2],[3]]⟩ : GPTDatasetV1).getitem idx = some p ∧
        (⟨[[1],[2]], [[2],[3]]⟩ : GPTDatasetV1).input_ids[idx]? = some p.1 ∧
        (⟨[[1],[2]], [[2],[3]]⟩ : GPTDatasetV1).target_ids[idx]? = some p.2 ∧
        (samplesOf [1,2,3] 1 1)[idx]? = some p :=
  dataset_invariants [1,2,3] 1 1 ⟨[[1],[2]], [[2],[3]]⟩ (by decide)

/-- C10: with stride 1, whenever samples k and k + 1 both exist, the target
window of sample k equals the input window of sample k + 1. -/
theorem adjacent_windows_chain (ts : List Int) (m : Int) (k : Nat)
    (hk : k + 1 < (samplesOf ts m 1).length) :
    ∃ p q : List Int × List Int,
      (samplesOf ts m 1)[k]? = some p ∧
      (samplesOf ts m 1)[k + 1]? = some q ∧
      p.2 = q.1 := by
  have hk0 : k < (samplesOf ts m 1).length := Nat.lt_of_succ_lt hk
  rw [getElem?_samplesOf ts m 1 k hk0, getElem?_samplesOf ts m 1 (k + 1) hk]
  refine ⟨_, _, rfl, rfl, ?_⟩
  show pySlice ts (1 * (k : Int) + 1) (1 * (k : Int) + m + 1) =
       pySlice ts (1 * ((k + 1 : Nat) : Int)) (1 * ((k + 1 : Nat) : Int) + m)
  congr 1 <;> (push_cast; ring)

/-- Witness for C10 at token sequence [1,2,3,4], max_length 1, k = 0. -/
theorem adjacent_windows_chain_witness :
    ∃ p q : List Int × List Int,
      (samplesOf [1,2,3,4] 1 1)[0]? = some p ∧
      (samplesOf [1,2,3,4] 1 1)[0 + 1]? = some q ∧
      p.2 = q.1 :=
  adjacent_windows_chain [1,2,3,4] 1 0 (by decide)
